import Mathlib

/-!
# Verification of the AgriSense agricultural-automation core

Shallow embedding of the repository's three native modules —
`src/protocols/isobus_simulator.py` (CAN frame and bus transport),
`src/actuators/irrigation.py` (irrigation controller) and
`src/actuators/fertilizer.py` (fertilization controller) — together with
theorems settling the specification claims about them.

Python floats are modelled as rationals (`ℚ`); all quantities the claims
touch are exactly representable.  `print` calls are display-only and
omitted; `datetime.now()` / `time.time()` timestamps and the
`random.uniform` pressure jitter are threaded in as explicit parameters.
-/

namespace AgriSense

/-! ## CAN frames (`CANMessage`, isobus_simulator.py lines 30-69) -/

/-- Errors raised by `CANMessage.__init__` (`ValueError`s in Python),
distinguished by which validation check fails. -/
inductive CANError where
  | invalidPayloadLength
  | identifierOutOfRange
  deriving DecidableEq, Repr

/-- A CAN message.  `can_id` is modelled as `Int` because Python ints are
unbounded and signed; `data` is the payload byte list; `dlc` is the data
length code set to `len(data)`; the construction timestamp is threaded in
as `timestamp`. -/
structure CANMessage where
  can_id : Int
  data : List Nat
  is_extended : Bool
  timestamp : ℚ
  dlc : Nat
  deriving DecidableEq, Repr

/-- `CANMessage.__init__`: rejects payloads longer than 8 bytes, then
rejects identifiers above `0x1FFFFFFF` (extended) or `0x7FF` (standard).
The length check runs first, exactly as in the source. -/
def CANMessage.make (can_id : Int) (data : List Nat) (is_extended : Bool)
    (now : ℚ) : Except CANError CANMessage :=
  if data.length > 8 then
    .error .invalidPayloadLength
  else if is_extended then
    if can_id > 0x1FFFFFFF then .error .identifierOutOfRange
    else .ok ⟨can_id, data, is_extended, now, data.length⟩
  else
    if can_id > 0x7FF then .error .identifierOutOfRange
    else .ok ⟨can_id, data, is_extended, now, data.length⟩

/-! ## Bus transport (`CANProtocol`, isobus_simulator.py lines 72-329) -/

/-- Mutable state of `CANProtocol`.  `errors` models the `self.errors`
log as the list of timestamps of recorded errors (the Python entry also
carries the message string, irrelevant to the claims). -/
structure CANProtocol where
  baudrate : Nat
  node_address : Nat
  is_active : Bool
  bus_load : ℚ
  error_count : Nat
  tx_buffer : List CANMessage
  rx_buffer : List CANMessage
  messages_sent : Nat
  messages_received : Nat
  errors : List ℚ
  rx_filters : List Int
  deriving DecidableEq, Repr

/-- `CANProtocol.__init__` with the default baudrate `RATE_250K`. -/
def CANProtocol.init (baudrate : Nat := 250000) (node_address : Nat := 0x01) :
    CANProtocol :=
  { baudrate := baudrate
    node_address := node_address
    is_active := false
    bus_load := 0
    error_count := 0
    tx_buffer := []
    rx_buffer := []
    messages_sent := 0
    messages_received := 0
    errors := []
    rx_filters := [] }

/-- `CANProtocol._update_bus_load`: recomputes `bus_load` from the total
number of queued frames, 130 bits per frame. -/
def CANProtocol.update_bus_load (s : CANProtocol) : CANProtocol :=
  let messages_per_sec : Nat := s.tx_buffer.length + s.rx_buffer.length
  let bits_per_sec : ℚ := (messages_per_sec : ℚ) * 130
  { s with bus_load := min 100 ((bits_per_sec / (s.baudrate : ℚ)) * 100) }

/-- The bus-load formula of `_update_bus_load`, as a value: what
`bus_load` would be if recomputed from a state's queues. -/
def CANProtocol.busLoadFormula (s : CANProtocol) : ℚ :=
  min 100 ((((s.tx_buffer.length + s.rx_buffer.length : Nat) : ℚ) * 130
    / (s.baudrate : ℚ)) * 100)

/-- `CANProtocol.start`: activates the bus and resets `error_count` to 0. -/
def CANProtocol.start (s : CANProtocol) : CANProtocol :=
  { s with is_active := true, error_count := 0 }

/-- `CANProtocol.stop`: deactivates the bus. -/
def CANProtocol.stop (s : CANProtocol) : CANProtocol :=
  { s with is_active := false }

/-- `CANProtocol.send_message`: returns the new state and the boolean
result.  Inactive bus: no change, `False`.  Frame construction failure:
`error_count` and the error log grow, `False`.  Success: the frame is
appended to `tx_buffer`, `messages_sent` increments, and the bus load is
recomputed. -/
def CANProtocol.send_message (s : CANProtocol) (can_id : Int)
    (data : List Nat) (is_extended : Bool) (now : ℚ) :
    CANProtocol × Bool :=
  if ¬s.is_active then (s, false)
  else
    match CANMessage.make can_id data is_extended now with
    | .ok message =>
        let s := { s with tx_buffer := s.tx_buffer ++ [message],
                          messages_sent := s.messages_sent + 1 }
        (s.update_bus_load, true)
    | .error _ =>
        ({ s with error_count := s.error_count + 1,
                  errors := s.errors ++ [now] }, false)

/-- `CANProtocol.receive_message`: pops the oldest frame from
`rx_buffer` (FIFO) and increments `messages_received`; returns `none`
when inactive or the buffer is empty. -/
def CANProtocol.receive_message (s : CANProtocol) :
    CANProtocol × Option CANMessage :=
  if ¬s.is_active then (s, none)
  else
    match s.rx_buffer with
    | [] => (s, none)
    | message :: rest =>
        ({ s with rx_buffer := rest,
                  messages_received := s.messages_received + 1 },
         some message)

/-- `CANProtocol.simulate_incoming_message`: when active and the filter
list is empty or contains `can_id`, constructs the frame and appends it
to `rx_buffer`; otherwise no change.  A construction error propagates as
an uncaught exception with the state unchanged. -/
def CANProtocol.simulate_incoming_message (s : CANProtocol) (can_id : Int)
    (data : List Nat) (is_extended : Bool) (now : ℚ) :
    Except CANError CANProtocol :=
  if ¬s.is_active then .ok s
  else if ¬s.rx_filters.isEmpty ∧ can_id ∉ s.rx_filters then .ok s
  else
    match CANMessage.make can_id data is_extended now with
    | .ok message => .ok { s with rx_buffer := s.rx_buffer ++ [message] }
    | .error e => .error e

/-- `CANProtocol.add_rx_filter`: appends `can_id` unless already present. -/
def CANProtocol.add_rx_filter (s : CANProtocol) (can_id : Int) : CANProtocol :=
  if can_id ∉ s.rx_filters then { s with rx_filters := s.rx_filters ++ [can_id] }
  else s

/-- `CANProtocol.clear_rx_filters`: empties the filter list. -/
def CANProtocol.clear_rx_filters (s : CANProtocol) : CANProtocol :=
  { s with rx_filters := [] }

/-- One externally-drivable operation of the bus transport, used to
quantify over "any single operation". -/
inductive CANOp where
  | start
  | stop
  | send (can_id : Int) (data : List Nat) (is_extended : Bool) (now : ℚ)
  | receive
  | inject (can_id : Int) (data : List Nat) (is_extended : Bool) (now : ℚ)
  | addFilter (can_id : Int)
  | clearFilters
  deriving DecidableEq

/-- The post-state of running a single bus operation (for `inject`, the
state is unchanged when construction raises, matching Python's
exception propagation before any mutation). -/
def CANProtocol.step (s : CANProtocol) : CANOp → CANProtocol
  | .start => s.start
  | .stop => s.stop
  | .send can_id data ext now => (s.send_message can_id data ext now).1
  | .receive => s.receive_message.1
  | .inject can_id data ext now =>
      match s.simulate_incoming_message can_id data ext now with
      | .ok s' => s'
      | .error _ => s
  | .addFilter can_id => s.add_rx_filter can_id
  | .clearFilters => s.clear_rx_filters

/-! ## Irrigation controller (`IrrigationSystem`, irrigation.py) -/

/-- `IrrigationMode` enum. -/
inductive IrrigationMode where
  | manual
  | automatic
  | scheduled
  | off
  deriving DecidableEq, Repr

/-- Precondition errors of the irrigation operations (Python prints a
warning and returns `False`/`None`; the error kind distinguishes which
check failed). -/
inductive IrrigationError where
  | notActive
  | unknownZone
  | outOfRange
  deriving DecidableEq, Repr

/-- Mutable state of `IrrigationSystem`.  The zone map
`{1: bool, ..., num_zones: bool}` is modelled as a `List Bool` whose
index `i` holds zone `i + 1`; its length is the fixed zone count
(`self.num_zones`), never altered by any operation.  `last_irrigation`
holds the threaded `datetime.now()` timestamp. -/
structure IrrigationSystem where
  max_flow_rate : ℚ
  is_active : Bool
  mode : IrrigationMode
  current_flow_rate : ℚ
  current_pressure : ℚ
  total_volume : ℚ
  zones_status : List Bool
  operation_time : ℚ
  last_irrigation : Option ℚ
  target_soil_moisture : ℚ
  deriving DecidableEq, Repr

/-- `IrrigationSystem.__init__` with `zones` zones. -/
def IrrigationSystem.init (zones : Nat := 4) (max_flow_rate : ℚ := 100) :
    IrrigationSystem :=
  { max_flow_rate := max_flow_rate
    is_active := false
    mode := .off
    current_flow_rate := 0
    current_pressure := 0
    total_volume := 0
    zones_status := List.replicate zones false
    operation_time := 0
    last_irrigation := none
    target_soil_moisture := 50 }

/-- The fixed zone count `self.num_zones`. -/
def IrrigationSystem.num_zones (s : IrrigationSystem) : Nat :=
  s.zones_status.length

/-- Zone-map membership test `zone_number in self.zones_status`: the keys
are exactly `1..num_zones`. -/
def IrrigationSystem.zoneExists (s : IrrigationSystem) (zone_number : Nat) : Prop :=
  1 ≤ zone_number ∧ zone_number ≤ s.num_zones

instance (s : IrrigationSystem) (n : Nat) : Decidable (s.zoneExists n) := by
  unfold IrrigationSystem.zoneExists; infer_instance

/-- `IrrigationSystem._update_flow_and_pressure`: with no open zone,
flow and pressure are zeroed; otherwise flow is
`min(max_flow_rate, open_count * (max_flow_rate / num_zones))` and
pressure is the 2.5-bar base plus the `random.uniform(-0.2, 0.2)` draw,
threaded in as `noise`. -/
def IrrigationSystem.update_flow_and_pressure (s : IrrigationSystem)
    (noise : ℚ) : IrrigationSystem :=
  let active_zones : Nat := s.zones_status.count true
  if active_zones = 0 then
    { s with current_flow_rate := 0, current_pressure := 0 }
  else
    { s with
        current_flow_rate :=
          min s.max_flow_rate
            ((active_zones : ℚ) * (s.max_flow_rate / (s.num_zones : ℚ)))
        current_pressure := 5/2 + noise }

/-- `IrrigationSystem.start`. -/
def IrrigationSystem.start (s : IrrigationSystem)
    (mode : IrrigationMode := .manual) : IrrigationSystem :=
  { s with is_active := true, mode := mode }

/-- `IrrigationSystem.stop`: deactivates, zeroes flow and pressure, and
closes every zone. -/
def IrrigationSystem.stop (s : IrrigationSystem) : IrrigationSystem :=
  { s with is_active := false
           mode := .off
           current_flow_rate := 0
           current_pressure := 0
           zones_status := s.zones_status.map (fun _ => false) }

/-- `IrrigationSystem.open_zone`: fails when the system is inactive,
then when the zone does not exist; otherwise marks the zone open and
recomputes flow and pressure. -/
def IrrigationSystem.open_zone (s : IrrigationSystem) (zone_number : Nat)
    (noise : ℚ) : IrrigationSystem × Option IrrigationError :=
  if ¬s.is_active then (s, some .notActive)
  else if ¬s.zoneExists zone_number then (s, some .unknownZone)
  else
    let s := { s with zones_status := s.zones_status.set (zone_number - 1) true }
    (s.update_flow_and_pressure noise, none)

/-- `IrrigationSystem.close_zone`: fails only when the zone does not
exist (there is no activity check, unlike `open_zone`); otherwise marks
the zone closed and recomputes flow and pressure. -/
def IrrigationSystem.close_zone (s : IrrigationSystem) (zone_number : Nat)
    (noise : ℚ) : IrrigationSystem × Option IrrigationError :=
  if ¬s.zoneExists zone_number then (s, some .unknownZone)
  else
    let s := { s with zones_status := s.zones_status.set (zone_number - 1) false }
    (s.update_flow_and_pressure noise, none)

/-- `IrrigationSystem.set_flow_rate`: requires an active system and
`0 ≤ flow_rate ≤ max_flow_rate`. -/
def IrrigationSystem.set_flow_rate (s : IrrigationSystem) (flow_rate : ℚ) :
    IrrigationSystem × Option IrrigationError :=
  if ¬s.is_active then (s, some .notActive)
  else if flow_rate < 0 ∨ flow_rate > s.max_flow_rate then (s, some .outOfRange)
  else ({ s with current_flow_rate := flow_rate }, none)

/-- `IrrigationSystem.irrigate_zone`: returns early (state unchanged)
only when the system is inactive.  Otherwise it calls `open_zone`
(ignoring its result), adds `duration_minutes` to `operation_time`,
adds `current_flow_rate * duration_minutes` to `total_volume`, calls
`close_zone` (ignoring its result) and stamps `last_irrigation` with
the threaded `now`.  The Python function returns `None` either way: no
outcome is reported to the caller. -/
def IrrigationSystem.irrigate_zone (s : IrrigationSystem) (zone_number : Nat)
    (duration_minutes : ℚ) (noise₁ noise₂ now : ℚ) : IrrigationSystem :=
  if ¬s.is_active then s
  else
    let s := (s.open_zone zone_number noise₁).1
    let s := { s with operation_time := s.operation_time + duration_minutes }
    let volume := s.current_flow_rate * duration_minutes
    let s := { s with total_volume := s.total_volume + volume }
    let s := (s.close_zone zone_number noise₂).1
    { s with last_irrigation := some now }

/-- The `for zone in range(1, self.num_zones + 1): self.open_zone(zone)`
loop of `auto_irrigate`, with the zone range fixed to `count` upfront
(as Python's `range` is). -/
def IrrigationSystem.openAllZones (s : IrrigationSystem) (count : Nat)
    (noise : ℚ) : IrrigationSystem :=
  (List.range' 1 count).foldl (fun acc zone => (acc.open_zone zone noise).1) s

/-- `IrrigationSystem.auto_irrigate`: acts only when active and in
Automatic mode; when the current moisture is below the target it
computes a duration `min(30, deficit * 2)` (displayed only — returned
here as the second component, `0` when not triggered), opens every zone
and returns `true`. -/
def IrrigationSystem.auto_irrigate (s : IrrigationSystem)
    (current_soil_moisture : ℚ) (noise : ℚ) :
    IrrigationSystem × Bool × ℚ :=
  if ¬s.is_active ∨ s.mode ≠ IrrigationMode.automatic then (s, false, 0)
  else if current_soil_moisture < s.target_soil_moisture then
    let deficit := s.target_soil_moisture - current_soil_moisture
    let duration := min 30 (deficit * 2)
    (s.openAllZones s.num_zones noise, true, duration)
  else (s, false, 0)

/-! ## Fertilization controller (`FertilizerSystem`, fertilizer.py) -/

/-- `FertilizerType` enum. -/
inductive FertilizerType where
  | npk_20_10_10
  | npk_10_20_20
  | npk_15_15_15
  | npk_04_14_08
  | urea
  deriving DecidableEq, Repr

/-- `ApplicationMode` enum. -/
inductive ApplicationMode where
  | manual
  | automatic
  | variable_rate
  | off
  deriving DecidableEq, Repr

/-- An `{'N': _, 'P': _, 'K': _}` nutrient triple. -/
structure NPK where
  n : ℚ
  p : ℚ
  k : ℚ
  deriving DecidableEq, Repr

/-- The `RuntimeError`s raised by `FertilizerSystem.apply` and the
`False`-returning precondition failures of the other operations. -/
inductive FertilizerError where
  | notActive
  | noProductLoaded
  | zeroRate
  | systemActive
  | capacityExceeded
  | outOfRange
  deriving DecidableEq, Repr

/-- Mutable state of `FertilizerSystem`.  `last_application` holds the
threaded `datetime.now()` timestamp. -/
structure FertilizerSystem where
  tank_capacity : ℚ
  max_rate : ℚ
  is_active : Bool
  mode : ApplicationMode
  current_fertilizer : Option FertilizerType
  tank_level : ℚ
  application_rate : ℚ
  total_applied : ℚ
  area_covered : ℚ
  last_application : Option ℚ
  applications_count : Nat
  target_npk : NPK
  deriving DecidableEq, Repr

/-- `FertilizerSystem.__init__`. -/
def FertilizerSystem.init (tank_capacity : ℚ := 500) (max_rate : ℚ := 200) :
    FertilizerSystem :=
  { tank_capacity := tank_capacity
    max_rate := max_rate
    is_active := false
    mode := .off
    current_fertilizer := none
    tank_level := tank_capacity
    application_rate := 0
    total_applied := 0
    area_covered := 0
    last_application := none
    applications_count := 0
    target_npk := ⟨30, 15, 40⟩ }

/-- `FertilizerSystem.start`. -/
def FertilizerSystem.start (s : FertilizerSystem)
    (mode : ApplicationMode := .manual) : FertilizerSystem :=
  { s with is_active := true, mode := mode }

/-- `FertilizerSystem.stop`: deactivates and zeroes the application rate. -/
def FertilizerSystem.stop (s : FertilizerSystem) : FertilizerSystem :=
  { s with is_active := false, mode := .off, application_rate := 0 }

/-- `FertilizerSystem.load_fertilizer`: only while stopped and within
tank capacity; replaces the loaded product and sets `tank_level`. -/
def FertilizerSystem.load_fertilizer (s : FertilizerSystem)
    (fertilizer_type : FertilizerType) (amount : ℚ) :
    FertilizerSystem × Option FertilizerError :=
  if s.is_active then (s, some .systemActive)
  else if amount > s.tank_capacity then (s, some .capacityExceeded)
  else ({ s with current_fertilizer := some fertilizer_type,
                 tank_level := amount }, none)

/-- `FertilizerSystem.set_application_rate`: requires an active system,
`0 ≤ rate ≤ max_rate` and a loaded product. -/
def FertilizerSystem.set_application_rate (s : FertilizerSystem) (rate : ℚ) :
    FertilizerSystem × Option FertilizerError :=
  if ¬s.is_active then (s, some .notActive)
  else if rate < 0 ∨ rate > s.max_rate then (s, some .outOfRange)
  else if s.current_fertilizer = none then (s, some .noProductLoaded)
  else ({ s with application_rate := rate }, none)

/-- `FertilizerSystem._get_npk_composition`: the fixed composition
table (percentages of N, P, K per product). -/
def FertilizerSystem.get_npk_composition : FertilizerType → NPK
  | .npk_20_10_10 => ⟨20, 10, 10⟩
  | .npk_10_20_20 => ⟨10, 20, 20⟩
  | .npk_15_15_15 => ⟨15, 15, 15⟩
  | .npk_04_14_08 => ⟨4, 14, 8⟩
  | .urea => ⟨45, 0, 0⟩

/-- The result record of `FertilizerSystem.apply` (the Python dict,
minus display rounding: `area_hectares`, `amount_applied_kg` and the
NPK breakdown are rounded to two decimals only for the returned dict;
the state always carries the exact values, and these fields hold the
exact pre-rounding quantities). -/
structure ApplyResult where
  area_hectares : ℚ
  amount_applied_kg : ℚ
  fertilizer_type : FertilizerType
  application_rate : ℚ
  tank_remaining_kg : ℚ
  npk_applied : NPK
  deriving DecidableEq, Repr

/-- `FertilizerSystem.apply`: raises unless active, with a product
loaded and a nonzero rate.  Computes `required = application_rate *
area`; if `required > tank_level`, clamps `required` to `tank_level`
and recomputes `area = tank_level / application_rate`.  Then decrements
the tank, accumulates the totals, counts the application and stamps
`last_application` with the threaded `now`. -/
def FertilizerSystem.apply (s : FertilizerSystem) (area : ℚ) (now : ℚ) :
    Except FertilizerError (FertilizerSystem × ApplyResult) :=
  if ¬s.is_active then .error .notActive
  else
    match s.current_fertilizer with
    | none => .error .noProductLoaded
    | some fert =>
      if s.application_rate = 0 then .error .zeroRate
      else
        let required_amount := s.application_rate * area
        let (required_amount, area) :=
          if required_amount > s.tank_level then
            (s.tank_level, s.tank_level / s.application_rate)
          else (required_amount, area)
        let s' := { s with
          tank_level := s.tank_level - required_amount
          total_applied := s.total_applied + required_amount
          area_covered := s.area_covered + area
          applications_count := s.applications_count + 1
          last_application := some now }
        let comp := FertilizerSystem.get_npk_composition fert
        let applied_npk : NPK :=
          ⟨required_amount * comp.n / 100,
           required_amount * comp.p / 100,
           required_amount * comp.k / 100⟩
        .ok (s', { area_hectares := area
                   amount_applied_kg := required_amount
                   fertilizer_type := fert
                   application_rate := s.application_rate
                   tank_remaining_kg := s'.tank_level
                   npk_applied := applied_npk })

/-- The result record of `FertilizerSystem.recommend_fertilizer`
(`recommended_rate_kg_ha` is rounded to one decimal only in the
returned dict; this field holds the exact pre-rounding value). -/
structure Recommendation where
  current_npk : NPK
  target_npk : NPK
  deficits : NPK
  recommended_fertilizer : Option FertilizerType
  recommended_rate_kg_ha : ℚ
  deriving DecidableEq, Repr

/-- `FertilizerSystem.recommend_fertilizer`: per-nutrient deficits
`max(0, target - current)`, fixed-priority product selection, and
recommended rate `min(max_rate, mean(deficits) * 3)` when a product is
selected, else `0`.  A pure read: it takes the state and returns only
the recommendation. -/
def FertilizerSystem.recommend_fertilizer (s : FertilizerSystem)
    (current_npk : NPK) : Recommendation :=
  let deficits : NPK :=
    ⟨max 0 (s.target_npk.n - current_npk.n),
     max 0 (s.target_npk.p - current_npk.p),
     max 0 (s.target_npk.k - current_npk.k)⟩
  let deficit_sum := deficits.n + deficits.p + deficits.k
  let recommended : Option FertilizerType :=
    if deficits.n > 10 then some .npk_20_10_10
    else if deficits.p > 10 then some .npk_04_14_08
    else if deficits.k > 10 then some .npk_10_20_20
    else if deficit_sum > 15 then some .npk_15_15_15
    else none
  let recommended_rate :=
    if recommended.isSome then min s.max_rate (deficit_sum / 3 * 3)
    else 0
  { current_npk := current_npk
    target_npk := s.target_npk
    deficits := deficits
    recommended_fertilizer := recommended
    recommended_rate_kg_ha := recommended_rate }

/-! ## Concrete states used by witnesses and counterexamples -/

/-- The spec's fertilization example: a 500 kg system, 300 kg of
NPK 15-15-15 loaded, started in manual mode, rate set to 80 kg/ha. -/
def fertExample : FertilizerSystem :=
  ((((FertilizerSystem.init 500 200).load_fertilizer .npk_15_15_15 300).1.start
      .manual).set_application_rate 80).1

/-! ## Claim theorems: frame construction -/

/-- C8: frame construction succeeds at identifier exactly 0x7FF
(Standard) and 0x1FFFFFFF (Extended); fails with `IdentifierOutOfRange`
at 0x800 (Standard) and 0x20000000 (Extended); fails with
`InvalidPayloadLength` for any 9-byte payload; and succeeds for any
8-byte payload (with an in-range identifier) with data-length code 8. -/
theorem frame_construction_boundaries (data : List Nat) (now : ℚ) :
    (data.length ≤ 8 → ∃ m, CANMessage.make 0x7FF data false now = .ok m) ∧
    (data.length ≤ 8 → ∃ m, CANMessage.make 0x1FFFFFFF data true now = .ok m) ∧
    (data.length ≤ 8 →
      CANMessage.make 0x800 data false now = .error .identifierOutOfRange) ∧
    (data.length ≤ 8 →
      CANMessage.make 0x20000000 data true now = .error .identifierOutOfRange) ∧
    (∀ can_id : Int, ∀ ext : Bool, data.length = 9 →
      CANMessage.make can_id data ext now = .error .invalidPayloadLength) ∧
    (∀ can_id : Int, ∀ ext : Bool, data.length = 8 →
      (ext = true → can_id ≤ 0x1FFFFFFF) → (ext = false → can_id ≤ 0x7FF) →
      ∃ m, CANMessage.make can_id data ext now = .ok m ∧ m.dlc = 8) := by
  refine ⟨?_, ?_, ?_, ?_, ?_, ?_⟩
  · intro h
    unfold CANMessage.make
    rw [if_neg (by omega)]
    simp only [Bool.false_eq_true, if_false]
    rw [if_neg (by norm_num)]
    exact ⟨_, rfl⟩
  · intro h
    unfold CANMessage.make
    rw [if_neg (by omega)]
    simp only [if_true]
    rw [if_neg (by norm_num)]
    exact ⟨_, rfl⟩
  · intro h
    unfold CANMessage.make
    rw [if_neg (by omega)]
    simp only [Bool.false_eq_true, if_false]
    rw [if_pos (by norm_num)]
  · intro h
    unfold CANMessage.make
    rw [if_neg (by omega)]
    simp only [if_true]
    rw [if_pos (by norm_num)]
  · intro can_id ext h
    unfold CANMessage.make
    rw [if_pos (by omega)]
  · intro can_id ext h hext hstd
    unfold CANMessage.make
    rw [if_neg (by omega)]
    cases ext with
    | false =>
        simp only [Bool.false_eq_true, if_false]
        rw [if_neg (by have := hstd rfl; omega)]
        exact ⟨_, rfl, h⟩
    | true =>
        simp only [if_true]
        rw [if_neg (by have := hext rfl; omega)]
        exact ⟨_, rfl, h⟩

/-- C8 witness: concrete instances of every clause at an 8-byte
(respectively 9-byte) all-zero payload. -/
theorem frame_construction_boundaries_witness :
    (∃ m, CANMessage.make 0x7FF (List.replicate 8 0) false 0 = .ok m) ∧
    (∃ m, CANMessage.make 0x1FFFFFFF (List.replicate 8 0) true 0 = .ok m) ∧
    CANMessage.make 0x800 (List.replicate 8 0) false 0 =
      .error .identifierOutOfRange ∧
    CANMessage.make 0x20000000 (List.replicate 8 0) true 0 =
      .error .identifierOutOfRange ∧
    CANMessage.make 0x100 (List.replicate 9 0) false 0 =
      .error .invalidPayloadLength ∧
    (∃ m, CANMessage.make 0x123 (List.replicate 8 0) false 0 = .ok m ∧
      m.dlc = 8) :=
  ⟨(frame_construction_boundaries (List.replicate 8 0) 0).1 (by decide),
   (frame_construction_boundaries (List.replicate 8 0) 0).2.1 (by decide),
   (frame_construction_boundaries (List.replicate 8 0) 0).2.2.1 (by decide),
   (frame_construction_boundaries (List.replicate 8 0) 0).2.2.2.1 (by decide),
   (frame_construction_boundaries (List.replicate 9 0) 0).2.2.2.2.1 0x100 false
     (by decide),
   (frame_construction_boundaries (List.replicate 8 0) 0).2.2.2.2.2 0x123 false
     (by decide) (by intro h; cases h) (by intro _; decide)⟩

/-- C10 (implicit): the constructor checks only the upper identifier
bound, so any negative identifier is accepted in both addressing modes
and the resulting frame's identifier lies below the documented unsigned
range. -/
theorem negative_identifier_accepted (can_id : Int) (data : List Nat)
    (ext : Bool) (now : ℚ) (hneg : can_id < 0) (hlen : data.length ≤ 8) :
    ∃ m, CANMessage.make can_id data ext now = .ok m ∧
      m.can_id = can_id ∧ m.can_id < 0 := by
  unfold CANMessage.make
  rw [if_neg (by omega)]
  cases ext with
  | false =>
      simp only [Bool.false_eq_true, if_false]
      rw [if_neg (by omega)]
      exact ⟨_, rfl, rfl, hneg⟩
  | true =>
      simp only [if_true]
      rw [if_neg (by omega)]
      exact ⟨_, rfl, rfl, hneg⟩

/-- C10 witness: identifier `-1` with an empty payload is accepted in
both Standard and Extended mode. -/
theorem negative_identifier_accepted_witness :
    (∃ m, CANMessage.make (-1) [] false 0 = .ok m ∧
      m.can_id = -1 ∧ m.can_id < 0) ∧
    (∃ m, CANMessage.make (-1) [] true 0 = .ok m ∧
      m.can_id = -1 ∧ m.can_id < 0) :=
  ⟨negative_identifier_accepted (-1) [] false 0 (by decide) (by decide),
   negative_identifier_accepted (-1) [] true 0 (by decide) (by decide)⟩

/-! ## Claim theorems: fertilization controller -/

/-- C1: with the system active, a product loaded and a nonzero rate,
`apply` always succeeds and never drives `tank_level` below zero: when
`application_rate * a ≤ tank_level` it applies exactly
`application_rate * a` and covers area `a`; otherwise it clamps the
applied amount to the old `tank_level`, covers
`tank_level / application_rate` hectares, and leaves the tank at 0. -/
theorem apply_clamps_tank (s : FertilizerSystem) (a now : ℚ)
    (fert : FertilizerType)
    (hactive : s.is_active = true)
    (hfert : s.current_fertilizer = some fert)
    (hrate : s.application_rate ≠ 0)
    (_ha : 0 ≤ a) :
    ∃ s' r, s.apply a now = .ok (s', r) ∧
      0 ≤ s'.tank_level ∧
      (s.application_rate * a ≤ s.tank_level →
        s'.tank_level = s.tank_level - s.application_rate * a ∧
        s'.area_covered = s.area_covered + a ∧
        r.amount_applied_kg = s.application_rate * a) ∧
      (s.tank_level < s.application_rate * a →
        s'.tank_level = 0 ∧
        s'.area_covered = s.area_covered + s.tank_level / s.application_rate ∧
        r.amount_applied_kg = s.tank_level) := by
  unfold FertilizerSystem.apply
  rw [hfert]
  simp only [hactive, not_true_eq_false, if_false]
  rw [if_neg hrate]
  by_cases hclamp : s.application_rate * a > s.tank_level
  · rw [if_pos hclamp]
    refine ⟨_, _, rfl, by simp, fun hle => absurd hclamp (not_lt.mpr hle), fun _ => ⟨by simp, rfl, rfl⟩⟩
  · rw [if_neg hclamp]
    refine ⟨_, _, rfl, ?_, fun _ => ⟨rfl, rfl, rfl⟩, fun hlt => absurd hlt (by simpa using hclamp)⟩
    simp only
    have : s.application_rate * a ≤ s.tank_level := not_lt.mp hclamp
    linarith

/-- C1 witness: the spec's example — rate 80 kg/ha, 300 kg in the tank,
`apply(5)` requires 400 kg, so it clamps: 3.75 ha covered, tank left
empty. -/
theorem apply_clamps_tank_witness :
    fertExample.is_active = true ∧
    fertExample.current_fertilizer = some .npk_15_15_15 ∧
    fertExample.application_rate ≠ 0 ∧
    (0 : ℚ) ≤ 5 ∧
    (∃ s' r, fertExample.apply 5 0 = .ok (s', r) ∧
      0 ≤ s'.tank_level ∧
      (fertExample.application_rate * 5 ≤ fertExample.tank_level →
        s'.tank_level = fertExample.tank_level - fertExample.application_rate * 5 ∧
        s'.area_covered = fertExample.area_covered + 5 ∧
        r.amount_applied_kg = fertExample.application_rate * 5) ∧
      (fertExample.tank_level < fertExample.application_rate * 5 →
        s'.tank_level = 0 ∧
        s'.area_covered = fertExample.area_covered +
          fertExample.tank_level / fertExample.application_rate ∧
        r.amount_applied_kg = fertExample.tank_level)) :=
  ⟨rfl, rfl, by decide, by norm_num,
   apply_clamps_tank fertExample 5 0 .npk_15_15_15 rfl rfl (by decide)
     (by norm_num)⟩

/-- C6: `recommend_fertilizer` computes deficits `max(0, target -
current)`, selects the product by the fixed priority (N-deficit > 10,
else P-deficit > 10, else K-deficit > 10, else deficit sum > 15, else
none), and recommends rate `min(max_rate, mean(deficits) * 3)` exactly
when a product is selected.  The embedding's `recommend_fertilizer` is
a pure function of the state: it returns only the recommendation and
never produces a new state, matching the source's read-only body. -/
theorem recommend_fertilizer_spec (s : FertilizerSystem) (c : NPK) :
    (s.recommend_fertilizer c).deficits =
      ⟨max 0 (s.target_npk.n - c.n), max 0 (s.target_npk.p - c.p),
       max 0 (s.target_npk.k - c.k)⟩ ∧
    ((s.recommend_fertilizer c).deficits.n > 10 →
      (s.recommend_fertilizer c).recommended_fertilizer = some .npk_20_10_10) ∧
    ((s.recommend_fertilizer c).deficits.n ≤ 10 →
      (s.recommend_fertilizer c).deficits.p > 10 →
      (s.recommend_fertilizer c).recommended_fertilizer = some .npk_04_14_08) ∧
    ((s.recommend_fertilizer c).deficits.n ≤ 10 →
      (s.recommend_fertilizer c).deficits.p ≤ 10 →
      (s.recommend_fertilizer c).deficits.k > 10 →
      (s.recommend_fertilizer c).recommended_fertilizer = some .npk_10_20_20) ∧
    ((s.recommend_fertilizer c).deficits.n ≤ 10 →
      (s.recommend_fertilizer c).deficits.p ≤ 10 →
      (s.recommend_fertilizer c).deficits.k ≤ 10 →
      (s.recommend_fertilizer c).deficits.n + (s.recommend_fertilizer c).deficits.p +
        (s.recommend_fertilizer c).deficits.k > 15 →
      (s.recommend_fertilizer c).recommended_fertilizer = some .npk_15_15_15) ∧
    ((s.recommend_fertilizer c).deficits.n ≤ 10 →
      (s.recommend_fertilizer c).deficits.p ≤ 10 →
      (s.recommend_fertilizer c).deficits.k ≤ 10 →
      (s.recommend_fertilizer c).deficits.n + (s.recommend_fertilizer c).deficits.p +
        (s.recommend_fertilizer c).deficits.k ≤ 15 →
      (s.recommend_fertilizer c).recommended_fertilizer = none) ∧
    ((s.recommend_fertilizer c).recommended_fertilizer.isSome = true →
      (s.recommend_fertilizer c).recommended_rate_kg_ha =
        min s.max_rate
          (((s.recommend_fertilizer c).deficits.n +
            (s.recommend_fertilizer c).deficits.p +
            (s.recommend_fertilizer c).deficits.k) / 3 * 3)) ∧
    ((s.recommend_fertilizer c).recommended_fertilizer = none →
      (s.recommend_fertilizer c).recommended_rate_kg_ha = 0) := by
  unfold FertilizerSystem.recommend_fertilizer
  dsimp only
  split_ifs <;>
    refine ⟨rfl, ?_, ?_, ?_, ?_, ?_, ?_, ?_⟩ <;>
      intros <;>
      first
        | rfl
        | (exfalso; linarith)
        | simp_all

/-- C6 witness: the spec's example — `recommend({N:15, P:8, K:25})`
against the default target `{N:30, P:15, K:40}` gives deficits
`{15, 7, 15}` and, since the N-deficit 15 > 10, the high-N product. -/
theorem recommend_fertilizer_spec_witness :
    ((FertilizerSystem.init 500 200).recommend_fertilizer ⟨15, 8, 25⟩).deficits =
      ⟨max 0 ((30 : ℚ) - 15), max 0 ((15 : ℚ) - 8), max 0 ((40 : ℚ) - 25)⟩ ∧
    ((FertilizerSystem.init 500 200).recommend_fertilizer
        ⟨15, 8, 25⟩).recommended_fertilizer = some .npk_20_10_10 :=
  ⟨(recommend_fertilizer_spec (FertilizerSystem.init 500 200) ⟨15, 8, 25⟩).1,
   (recommend_fertilizer_spec (FertilizerSystem.init 500 200) ⟨15, 8, 25⟩).2.1
     (by norm_num [FertilizerSystem.recommend_fertilizer, FertilizerSystem.init])⟩

/-! ## Helper lemmas: irrigation controller -/

/-- `_update_flow_and_pressure` touches only the flow and pressure
fields. -/
lemma update_flow_fields (s : IrrigationSystem) (noise : ℚ) :
    (s.update_flow_and_pressure noise).zones_status = s.zones_status ∧
    (s.update_flow_and_pressure noise).is_active = s.is_active ∧
    (s.update_flow_and_pressure noise).mode = s.mode ∧
    (s.update_flow_and_pressure noise).operation_time = s.operation_time ∧
    (s.update_flow_and_pressure noise).total_volume = s.total_volume ∧
    (s.update_flow_and_pressure noise).last_irrigation = s.last_irrigation ∧
    (s.update_flow_and_pressure noise).target_soil_moisture =
      s.target_soil_moisture := by
  unfold IrrigationSystem.update_flow_and_pressure
  dsimp only
  split_ifs <;> exact ⟨rfl, rfl, rfl, rfl, rfl, rfl, rfl⟩

/-- `open_zone` touches only the zone map and the flow/pressure fields. -/
lemma open_zone_fields (s : IrrigationSystem) (z : Nat) (noise : ℚ) :
    ((s.open_zone z noise).1).is_active = s.is_active ∧
    ((s.open_zone z noise).1).mode = s.mode ∧
    ((s.open_zone z noise).1).zones_status.length = s.zones_status.length ∧
    ((s.open_zone z noise).1).operation_time = s.operation_time ∧
    ((s.open_zone z noise).1).total_volume = s.total_volume ∧
    ((s.open_zone z noise).1).last_irrigation = s.last_irrigation ∧
    ((s.open_zone z noise).1).target_soil_moisture = s.target_soil_moisture := by
  unfold IrrigationSystem.open_zone
  dsimp only
  by_cases h1 : s.is_active = true
  · rw [if_neg (not_not_intro h1)]
    by_cases h2 : s.zoneExists z
    · rw [if_neg (not_not_intro h2)]
      obtain ⟨e1, e2, e3, e4, e5, e6, e7⟩ := update_flow_fields
        { s with zones_status := s.zones_status.set (z - 1) true } noise
      exact ⟨e2, e3, by rw [e1]; exact List.length_set .., e4, e5, e6, e7⟩
    · rw [if_pos h2]
      exact ⟨rfl, rfl, rfl, rfl, rfl, rfl, rfl⟩
  · rw [if_pos h1]
    exact ⟨rfl, rfl, rfl, rfl, rfl, rfl, rfl⟩

/-- On an active system, a valid `open_zone` sets the zone's entry to
`true` (and then only recomputes flow/pressure). -/
lemma open_zone_zones_valid (s : IrrigationSystem) (z : Nat) (noise : ℚ)
    (hactive : s.is_active = true) (h1 : 1 ≤ z)
    (h2 : z ≤ s.zones_status.length) :
    ((s.open_zone z noise).1).zones_status =
      s.zones_status.set (z - 1) true := by
  unfold IrrigationSystem.open_zone
  have hc1 : ¬¬(s.is_active = true) := not_not_intro hactive
  have hc2 : ¬¬s.zoneExists z := not_not_intro ⟨h1, h2⟩
  rw [if_neg hc1, if_neg hc2]
  dsimp only
  exact (update_flow_fields _ noise).1

/-- `open_zone` on an invalid zone index is a no-op on the state. -/
lemma open_zone_invalid (s : IrrigationSystem) (z : Nat) (noise : ℚ)
    (hz : ¬s.zoneExists z) : (s.open_zone z noise).1 = s := by
  unfold IrrigationSystem.open_zone
  split_ifs <;> rfl

/-- `close_zone` on an invalid zone index fails with `unknownZone` and
leaves the state unchanged. -/
lemma close_zone_invalid (s : IrrigationSystem) (z : Nat) (noise : ℚ)
    (hz : ¬s.zoneExists z) :
    s.close_zone z noise = (s, some .unknownZone) := by
  unfold IrrigationSystem.close_zone
  rw [if_pos hz]

/-- The `auto_irrigate` open-all fold: bookkeeping fields are untouched
by any list of `open_zone` calls. -/
lemma foldOpen_fields (l : List Nat) (s : IrrigationSystem) (noise : ℚ) :
    ((l.foldl (fun acc z => (acc.open_zone z noise).1) s)).is_active =
      s.is_active ∧
    ((l.foldl (fun acc z => (acc.open_zone z noise).1) s)).mode = s.mode ∧
    ((l.foldl (fun acc z => (acc.open_zone z noise).1) s)).zones_status.length =
      s.zones_status.length ∧
    ((l.foldl (fun acc z => (acc.open_zone z noise).1) s)).operation_time =
      s.operation_time ∧
    ((l.foldl (fun acc z => (acc.open_zone z noise).1) s)).total_volume =
      s.total_volume ∧
    ((l.foldl (fun acc z => (acc.open_zone z noise).1) s)).last_irrigation =
      s.last_irrigation := by
  induction l generalizing s with
  | nil => exact ⟨rfl, rfl, rfl, rfl, rfl, rfl⟩
  | cons z rest ih =>
      obtain ⟨f1, f2, f3, f4, f5, f6, _⟩ := open_zone_fields s z noise
      obtain ⟨g1, g2, g3, g4, g5, g6⟩ := ih ((s.open_zone z noise).1)
      exact ⟨g1.trans f1, g2.trans f2, g3.trans f3, g4.trans f4,
        g5.trans f5, g6.trans f6⟩

/-- After folding `open_zone` over a list of valid zone indices on an
active system, a zone entry reads `true` exactly when its index was in
the list (and is otherwise untouched). -/
lemma foldOpen_zones (l : List Nat) (s : IrrigationSystem) (noise : ℚ)
    (hactive : s.is_active = true)
    (hv : ∀ z ∈ l, 1 ≤ z ∧ z ≤ s.zones_status.length) :
    ∀ i, i < s.zones_status.length →
      ((l.foldl (fun acc z => (acc.open_zone z noise).1) s)).zones_status.getD
          i false =
        if i + 1 ∈ l then true else s.zones_status.getD i false := by
  induction l generalizing s with
  | nil => intro i _; simp
  | cons z rest ih =>
      intro i hi
      obtain ⟨hz1, hz2⟩ := hv z (List.mem_cons_self z rest)
      have hzset : ((s.open_zone z noise).1).zones_status =
          s.zones_status.set (z - 1) true :=
        open_zone_zones_valid s z noise hactive hz1 hz2
      have hact1 : ((s.open_zone z noise).1).is_active = true :=
        (open_zone_fields s z noise).1.trans hactive
      have hlen1 : ((s.open_zone z noise).1).zones_status.length =
          s.zones_status.length :=
        (open_zone_fields s z noise).2.2.1
      have hv1 : ∀ w ∈ rest, 1 ≤ w ∧
          w ≤ ((s.open_zone z noise).1).zones_status.length := by
        intro w hw
        rw [hlen1]
        exact hv w (List.mem_cons_of_mem z hw)
      have := ih ((s.open_zone z noise).1) hact1 hv1 i (by rw [hlen1]; exact hi)
      rw [List.foldl_cons, this]
      by_cases hmem : i + 1 ∈ rest
      · simp [hmem]
      · have hiff : i + 1 = z ↔ i = z - 1 := by omega
        by_cases heq : i = z - 1
        · have : i + 1 ∈ z :: rest := by
            rw [List.mem_cons]
            exact Or.inl (hiff.mpr heq)
          rw [if_neg hmem, if_pos this, hzset]
          simp [List.getD_eq_getElem?_getD, heq,
            List.getElem?_set_self (by omega : z - 1 < s.zones_status.length)]
        · have : i + 1 ∉ z :: rest := by
            rw [List.mem_cons]
            rintro (h | h)
            · exact heq (hiff.mp h)
            · exact hmem h
          rw [if_neg hmem, if_neg this, hzset]
          simp [List.getD_eq_getElem?_getD,
            List.getElem?_set_ne (fun h => heq h.symm)]

/-- On an active system, `openAllZones` over the full zone range leaves
every zone open. -/
lemma openAllZones_all_open (s : IrrigationSystem) (noise : ℚ)
    (hactive : s.is_active = true) :
    ∀ i, i < s.zones_status.length →
      (s.openAllZones s.num_zones noise).zones_status.getD i false = true := by
  intro i hi
  unfold IrrigationSystem.openAllZones
  have hv : ∀ z ∈ List.range' 1 s.num_zones,
      1 ≤ z ∧ z ≤ s.zones_status.length := by
    intro z hz
    rw [List.mem_range'] at hz
    obtain ⟨j, hj, rfl⟩ := hz
    unfold IrrigationSystem.num_zones at hj
    omega
  rw [foldOpen_zones (List.range' 1 s.num_zones) s noise hactive hv i hi,
    if_pos]
  rw [List.mem_range']
  exact ⟨i, hi, by omega⟩

/-! ## Claim theorems: irrigation controller -/

/-- A 4-zone, 100 L/min irrigation controller started in Automatic mode
with the spec's target moisture of 60 %. -/
def irrAutoExample : IrrigationSystem :=
  { (IrrigationSystem.init 4 100).start .automatic with
      target_soil_moisture := 60 }

/-- An inactive 4-zone irrigation controller whose zone 1 is open. -/
def irrInactiveOpen : IrrigationSystem :=
  { IrrigationSystem.init 4 100 with
      zones_status := [true, false, false, false] }

/-- A 4-zone irrigation controller started in Manual mode. -/
def irrActive : IrrigationSystem :=
  (IrrigationSystem.init 4 100).start .manual

/-- C9: on an active controller in Automatic mode, `auto_irrigate`
below the target triggers and leaves every zone in `1..zone_count`
open; at or above the target it does not trigger and the zone map is
unchanged. -/
theorem auto_irrigate_moisture (s : IrrigationSystem) (m noise : ℚ)
    (hactive : s.is_active = true) (hmode : s.mode = .automatic) :
    (m < s.target_soil_moisture →
      (s.auto_irrigate m noise).2.1 = true ∧
      ∀ z : Nat, 1 ≤ z → z ≤ s.num_zones →
        (s.auto_irrigate m noise).1.zones_status.getD (z - 1) false = true) ∧
    (s.target_soil_moisture ≤ m →
      (s.auto_irrigate m noise).2.1 = false ∧
      (s.auto_irrigate m noise).1.zones_status = s.zones_status) := by
  unfold IrrigationSystem.auto_irrigate
  rw [if_neg (by simp [hactive, hmode])]
  constructor
  · intro hm
    rw [if_pos hm]
    refine ⟨rfl, fun z hz1 hz2 => ?_⟩
    exact openAllZones_all_open s noise hactive (z - 1)
      (by unfold IrrigationSystem.num_zones at hz2; omega)
  · intro hm
    rw [if_neg (not_lt.mpr hm)]
    exact ⟨rfl, rfl⟩

/-- C9 witness: the spec's example — target 60, moisture 45 triggers
and opens all four zones; moisture 65 does not trigger and leaves the
zone map unchanged. -/
theorem auto_irrigate_moisture_witness :
    (irrAutoExample.auto_irrigate 45 0).2.1 = true ∧
    (irrAutoExample.auto_irrigate 45 0).1.zones_status.getD 0 false = true ∧
    (irrAutoExample.auto_irrigate 45 0).1.zones_status.getD 1 false = true ∧
    (irrAutoExample.auto_irrigate 45 0).1.zones_status.getD 2 false = true ∧
    (irrAutoExample.auto_irrigate 45 0).1.zones_status.getD 3 false = true ∧
    (irrAutoExample.auto_irrigate 65 0).2.1 = false ∧
    (irrAutoExample.auto_irrigate 65 0).1.zones_status =
      irrAutoExample.zones_status := by
  have h45 := (auto_irrigate_moisture irrAutoExample 45 0 rfl rfl).1
    (by norm_num [irrAutoExample, IrrigationSystem.init, IrrigationSystem.start])
  have h65 := (auto_irrigate_moisture irrAutoExample 65 0 rfl rfl).2
    (by norm_num [irrAutoExample, IrrigationSystem.init, IrrigationSystem.start])
  exact ⟨h45.1, h45.2 1 (by decide) (by decide), h45.2 2 (by decide) (by decide),
    h45.2 3 (by decide) (by decide), h45.2 4 (by decide) (by decide),
    h65.1, h65.2⟩

/-- C4 counterexample: on an inactive controller, `close_zone(1)` does
NOT fail with a NotActive error — it succeeds (the source has no
activity check in `close_zone`), and it even mutates the zone map when
the zone was open. -/
theorem close_zone_inactive_counterexample :
    irrInactiveOpen.is_active = false ∧
    (irrInactiveOpen.close_zone 1 0).2 = none ∧
    (irrInactiveOpen.close_zone 1 0).1.zones_status ≠
      irrInactiveOpen.zones_status := by
  refine ⟨rfl, rfl, ?_⟩
  decide

/-- C4 (amended): `close_zone`, unlike `open_zone`, performs no
activity check: on any state, active or not, a valid zone index is
closed (the zone map entry is set to `false` and flow/pressure are
recomputed) with success reported; only an unknown zone index fails,
with `UnknownZone` and no state change. -/
theorem close_zone_no_activity_check (s : IrrigationSystem) (z : Nat)
    (noise : ℚ) :
    (s.zoneExists z →
      (s.close_zone z noise).2 = none ∧
      (s.close_zone z noise).1 =
        IrrigationSystem.update_flow_and_pressure
          { s with zones_status := s.zones_status.set (z - 1) false } noise) ∧
    (¬s.zoneExists z → s.close_zone z noise = (s, some .unknownZone)) := by
  constructor
  · intro hz
    unfold IrrigationSystem.close_zone
    rw [if_neg (not_not_intro hz)]
    exact ⟨rfl, rfl⟩
  · intro hz
    exact close_zone_invalid s z noise hz

/-- C4 witness: on the inactive controller, closing existing zone 1
succeeds and recomputes flow/pressure; closing nonexistent zone 9
fails with `UnknownZone` and changes nothing. -/
theorem close_zone_no_activity_check_witness :
    ((irrInactiveOpen.close_zone 1 0).2 = none ∧
      (irrInactiveOpen.close_zone 1 0).1 =
        IrrigationSystem.update_flow_and_pressure
          { irrInactiveOpen with
              zones_status := irrInactiveOpen.zones_status.set 0 false } 0) ∧
    irrInactiveOpen.close_zone 9 0 = (irrInactiveOpen, some .unknownZone) :=
  ⟨(close_zone_no_activity_check irrInactiveOpen 1 0).1 (by decide),
   (close_zone_no_activity_check irrInactiveOpen 9 0).2 (by decide)⟩

/-- C5 counterexample: on an active controller, `irrigate_zone` with the
nonexistent zone 5 is NOT effect-free — the source never checks the
zone index, so the 10-minute duration is still accumulated into
`operation_time` and `last_irrigation` is stamped, while nothing is
reported to the caller (the function returns `None` in Python). -/
theorem irrigate_zone_unknown_counterexample :
    irrActive.is_active = true ∧
    ¬irrActive.zoneExists 5 ∧
    irrActive.operation_time = 0 ∧
    (irrActive.irrigate_zone 5 10 0 0 1).operation_time = 10 ∧
    (irrActive.irrigate_zone 5 10 0 0 1).last_irrigation = some 1 := by
  refine ⟨rfl, by decide, rfl, ?_, ?_⟩ <;>
    norm_num [irrActive, IrrigationSystem.irrigate_zone,
      IrrigationSystem.open_zone, IrrigationSystem.close_zone,
      IrrigationSystem.update_flow_and_pressure, IrrigationSystem.zoneExists,
      IrrigationSystem.num_zones, IrrigationSystem.start,
      IrrigationSystem.init]

/-- C5 (amended): on an active controller, `irrigate_zone` with a zone
index outside `1..zone_count` still accumulates the duration into
`operation_time`, still adds `current_flow_rate * duration` to
`total_volume`, and still stamps `last_irrigation`; the zone map, flow
rate and pressure are unchanged (the open/close attempts fail
internally) and no failure is reported. -/
theorem irrigate_zone_unknown_zone (s : IrrigationSystem) (z : Nat)
    (d noise₁ noise₂ now : ℚ) (hactive : s.is_active = true)
    (hz : ¬s.zoneExists z) :
    (s.irrigate_zone z d noise₁ noise₂ now).operation_time =
      s.operation_time + d ∧
    (s.irrigate_zone z d noise₁ noise₂ now).total_volume =
      s.total_volume + s.current_flow_rate * d ∧
    (s.irrigate_zone z d noise₁ noise₂ now).zones_status = s.zones_status ∧
    (s.irrigate_zone z d noise₁ noise₂ now).current_flow_rate =
      s.current_flow_rate ∧
    (s.irrigate_zone z d noise₁ noise₂ now).current_pressure =
      s.current_pressure ∧
    (s.irrigate_zone z d noise₁ noise₂ now).last_irrigation = some now := by
  unfold IrrigationSystem.irrigate_zone
  rw [if_neg (not_not_intro hactive)]
  dsimp only
  rw [open_zone_invalid s z noise₁ hz]
  rw [close_zone_invalid _ z noise₂ (by exact hz)]
  exact ⟨rfl, rfl, rfl, rfl, rfl, rfl⟩

/-- C5 witness: the active 4-zone controller, zone 5, duration 10. -/
theorem irrigate_zone_unknown_zone_witness :
    (irrActive.irrigate_zone 5 10 0 0 1).operation_time =
      irrActive.operation_time + 10 ∧
    (irrActive.irrigate_zone 5 10 0 0 1).total_volume =
      irrActive.total_volume + irrActive.current_flow_rate * 10 ∧
    (irrActive.irrigate_zone 5 10 0 0 1).zones_status =
      irrActive.zones_status ∧
    (irrActive.irrigate_zone 5 10 0 0 1).current_flow_rate =
      irrActive.current_flow_rate ∧
    (irrActive.irrigate_zone 5 10 0 0 1).current_pressure =
      irrActive.current_pressure ∧
    (irrActive.irrigate_zone 5 10 0 0 1).last_irrigation = some 1 :=
  irrigate_zone_unknown_zone irrActive 5 10 0 0 1 rfl (by decide)

/-- C7 counterexample: with target 60 and moisture 45, `auto_irrigate`
triggers and the displayed duration formula gives 30 minutes, yet
`operation_time` is NOT increased — the source computes the duration
only for its log message and never accumulates it into the
statistics. -/
theorem auto_irrigate_stats_counterexample :
    (irrAutoExample.auto_irrigate 45 0).2.1 = true ∧
    min 30 ((irrAutoExample.target_soil_moisture - 45) * 2) = 30 ∧
    irrAutoExample.operation_time = 0 ∧
    (irrAutoExample.auto_irrigate 45 0).1.operation_time = 0 := by
  have htrig := (auto_irrigate_moisture irrAutoExample 45 0 rfl rfl).1
    (by norm_num [irrAutoExample, IrrigationSystem.init, IrrigationSystem.start])
  refine ⟨htrig.1, by norm_num [irrAutoExample, IrrigationSystem.init,
    IrrigationSystem.start], rfl, ?_⟩
  unfold IrrigationSystem.auto_irrigate
  rw [if_neg (by decide), if_pos (by norm_num [irrAutoExample,
    IrrigationSystem.init, IrrigationSystem.start])]
  exact (foldOpen_fields _ irrAutoExample 0).2.2.2.1

/-- C7 (amended): on an active controller in Automatic mode with
moisture below target, `auto_irrigate` triggers and computes the
duration `min(30, (target − current) * 2)` — but only as a displayed
value; it is never accumulated: `operation_time` (and `total_volume`)
are unchanged. -/
theorem auto_irrigate_duration_display (s : IrrigationSystem) (m noise : ℚ)
    (hactive : s.is_active = true) (hmode : s.mode = .automatic)
    (hm : m < s.target_soil_moisture) :
    (s.auto_irrigate m noise).2.1 = true ∧
    (s.auto_irrigate m noise).2.2 =
      min 30 ((s.target_soil_moisture - m) * 2) ∧
    (s.auto_irrigate m noise).1.operation_time = s.operation_time ∧
    (s.auto_irrigate m noise).1.total_volume = s.total_volume := by
  unfold IrrigationSystem.auto_irrigate
  rw [if_neg (by simp [hactive, hmode]), if_pos hm]
  exact ⟨rfl, rfl, (foldOpen_fields _ s noise).2.2.2.1,
    (foldOpen_fields _ s noise).2.2.2.2.1⟩

/-- C7's amended-claim witness: target 60, moisture 45, displayed
duration 30, statistics untouched. -/
theorem auto_irrigate_duration_display_witness :
    (irrAutoExample.auto_irrigate 45 0).2.1 = true ∧
    (irrAutoExample.auto_irrigate 45 0).2.2 =
      min 30 ((irrAutoExample.target_soil_moisture - 45) * 2) ∧
    (irrAutoExample.auto_irrigate 45 0).1.operation_time =
      irrAutoExample.operation_time ∧
    (irrAutoExample.auto_irrigate 45 0).1.total_volume =
      irrAutoExample.total_volume :=
  auto_irrigate_duration_display irrAutoExample 45 0 rfl rfl
    (by norm_num [irrAutoExample, IrrigationSystem.init, IrrigationSystem.start])

/-! ## Claim theorems: bus transport -/

/-- A freshly started bus at the default 250 kbit/s. -/
def canStarted : CANProtocol := (CANProtocol.init 250000 0x01).start

/-- The started bus after one failed send (9-byte payload), so
`error_count = 1`. -/
def canErrState : CANProtocol :=
  (canStarted.send_message 0 (List.replicate 9 0) false 0).1

/-- The started bus after one injected (received) frame; the receive
queue holds one frame but `bus_load` was never recomputed. -/
def canInjState : CANProtocol :=
  canStarted.step (CANOp.inject 0x300 [1, 2, 3, 4, 5, 6, 7, 8] false 0)

/-- C2 counterexample: `start` RESETS `error_count` to 0, so from the
reachable state with `error_count = 1` (one failed send), the single
operation `start` strictly decreases the error counter — the counters
are not monotone over every operation. -/
theorem counters_reset_counterexample :
    canErrState.error_count = 1 ∧
    (canErrState.step CANOp.start).error_count = 0 ∧
    (canErrState.step CANOp.start).error_count < canErrState.error_count := by
  exact ⟨rfl, rfl, by decide⟩

/-- C2 (amended): over any single bus operation, `messages_sent` and
`messages_received` never decrease, and `error_count` never decreases
except under `start`, which resets it to 0.  (`send_sensor_data` and
`send_actuator_command` delegate to `send_message` and are covered by
the `send` operation.) -/
theorem counters_monotone (s : CANProtocol) (op : CANOp) :
    s.messages_sent ≤ (s.step op).messages_sent ∧
    s.messages_received ≤ (s.step op).messages_received ∧
    (op ≠ CANOp.start → s.error_count ≤ (s.step op).error_count) ∧
    (op = CANOp.start → (s.step op).error_count = 0) := by
  cases op with
  | start =>
      exact ⟨le_refl _, le_refl _, fun h => absurd rfl h, fun _ => rfl⟩
  | stop =>
      exact ⟨le_refl _, le_refl _, fun _ => le_refl _, nofun⟩
  | send can_id data ext now =>
      simp only [CANProtocol.step]
      unfold CANProtocol.send_message
      dsimp only
      by_cases h : s.is_active = true
      · rw [if_neg (not_not_intro h)]
        cases hmk : CANMessage.make can_id data ext now with
        | ok m =>
            exact ⟨Nat.le_succ _, le_refl _, fun _ => le_refl _, nofun⟩
        | error e =>
            exact ⟨le_refl _, le_refl _, fun _ => Nat.le_succ _, nofun⟩
      · rw [if_pos h]
        exact ⟨le_refl _, le_refl _, fun _ => le_refl _, nofun⟩
  | receive =>
      simp only [CANProtocol.step]
      unfold CANProtocol.receive_message
      try dsimp only
      by_cases h : s.is_active = true
      · rw [if_neg (not_not_intro h)]
        cases hrx : s.rx_buffer with
        | nil =>
            exact ⟨le_refl _, le_refl _, fun _ => le_refl _, nofun⟩
        | cons m rest =>
            exact ⟨le_refl _, Nat.le_succ _, fun _ => le_refl _, nofun⟩
      · rw [if_pos h]
        exact ⟨le_refl _, le_refl _, fun _ => le_refl _, nofun⟩
  | inject can_id data ext now =>
      simp only [CANProtocol.step]
      unfold CANProtocol.simulate_incoming_message
      try dsimp only
      by_cases h : s.is_active = true
      · rw [if_neg (not_not_intro h)]
        by_cases hf : ¬s.rx_filters.isEmpty ∧ can_id ∉ s.rx_filters
        · rw [if_pos hf]
          exact ⟨le_refl _, le_refl _, fun _ => le_refl _, nofun⟩
        · rw [if_neg hf]
          cases hmk : CANMessage.make can_id data ext now with
          | ok m =>
              exact ⟨le_refl _, le_refl _, fun _ => le_refl _, nofun⟩
          | error e =>
              exact ⟨le_refl _, le_refl _, fun _ => le_refl _, nofun⟩
      · rw [if_pos h]
        exact ⟨le_refl _, le_refl _, fun _ => le_refl _, nofun⟩
  | addFilter can_id =>
      simp only [CANProtocol.step]
      unfold CANProtocol.add_rx_filter
      split_ifs <;> exact ⟨le_refl _, le_refl _, fun _ => le_refl _, nofun⟩
  | clearFilters =>
      exact ⟨le_refl _, le_refl _, fun _ => le_refl _, nofun⟩

/-- C2's amended-claim witness: a receive on the error state keeps the
counter, while `start` resets it to 0. -/
theorem counters_monotone_witness :
    canErrState.error_count ≤ (canErrState.step CANOp.receive).error_count ∧
    (canErrState.step CANOp.start).error_count = 0 :=
  ⟨(counters_monotone canErrState CANOp.receive).2.2.1 (by decide),
   (counters_monotone canErrState CANOp.start).2.2.2 rfl⟩

/-- C3 counterexample: `inject` (`simulate_incoming_message`) mutates
the receive queue but does NOT recompute the utilization estimate: with
one queued frame the formula gives 13/250 % at 250 kbit/s, while
`bus_load` still reads its stale value 0. -/
theorem busload_stale_counterexample :
    canInjState.tx_buffer.length + canInjState.rx_buffer.length = 1 ∧
    canInjState.bus_load = 0 ∧
    canInjState.busLoadFormula = 13 / 250 ∧
    canInjState.bus_load ≠ canInjState.busLoadFormula := by
  have h1 : canInjState.tx_buffer.length + canInjState.rx_buffer.length = 1 :=
    by decide
  have h2 : canInjState.bus_load = 0 := rfl
  have h3 : canInjState.baudrate = 250000 := rfl
  have h4 : canInjState.busLoadFormula = 13 / 250 := by
    unfold CANProtocol.busLoadFormula
    rw [h1, h3]
    norm_num
  exact ⟨h1, h2, h4, by rw [h2, h4]; norm_num⟩

/-- C3 (amended): the utilization estimate is recomputed only by a
successful `transmit` (`send_message`), where it then equals the
formula over the post-state queues; a failed send, a `receive` and an
`inject` all leave `bus_load` at its previous (possibly stale) value. -/
theorem busload_update_spec (s : CANProtocol) (can_id : Int) (data : List Nat)
    (ext : Bool) (now : ℚ) :
    ((s.send_message can_id data ext now).2 = true →
      (s.send_message can_id data ext now).1.bus_load =
        CANProtocol.busLoadFormula (s.send_message can_id data ext now).1) ∧
    ((s.send_message can_id data ext now).2 = false →
      (s.send_message can_id data ext now).1.bus_load = s.bus_load) ∧
    s.receive_message.1.bus_load = s.bus_load ∧
    (∀ s', s.simulate_incoming_message can_id data ext now = Except.ok s' →
      s'.bus_load = s.bus_load) := by
  refine ⟨?_, ?_, ?_, ?_⟩
  · unfold CANProtocol.send_message
    dsimp only
    by_cases h : s.is_active = true
    · rw [if_neg (not_not_intro h)]
      cases hmk : CANMessage.make can_id data ext now with
      | ok m =>
          intro _
          rfl
      | error e =>
          intro hb
          cases hb
    · rw [if_pos h]
      intro hb
      cases hb
  · unfold CANProtocol.send_message
    dsimp only
    by_cases h : s.is_active = true
    · rw [if_neg (not_not_intro h)]
      cases hmk : CANMessage.make can_id data ext now with
      | ok m =>
          intro hb
          cases hb
      | error e =>
          intro _
          rfl
    · rw [if_pos h]
      intro _
      rfl
  · unfold CANProtocol.receive_message
    try dsimp only
    by_cases h : s.is_active = true
    · rw [if_neg (not_not_intro h)]
      cases hrx : s.rx_buffer with
      | nil => rfl
      | cons m rest => rfl
    · rw [if_pos h]
  · unfold CANProtocol.simulate_incoming_message
    try dsimp only
    by_cases h : s.is_active = true
    · rw [if_neg (not_not_intro h)]
      by_cases hf : ¬s.rx_filters.isEmpty ∧ can_id ∉ s.rx_filters
      · rw [if_pos hf]
        intro s' hs'
        cases hs'
        rfl
      · rw [if_neg hf]
        cases hmk : CANMessage.make can_id data ext now with
        | ok m =>
            intro s' hs'
            cases hs'
            rfl
        | error e =>
            intro s' hs'
            cases hs'
    · rw [if_pos h]
      intro s' hs'
      cases hs'
      rfl

/-- C3's amended-claim witness: a successful send on the fresh bus
matches the formula; receive and inject keep the stale value. -/
theorem busload_update_spec_witness :
    ((canStarted.send_message 0x100 [1] false 0).1.bus_load =
      CANProtocol.busLoadFormula (canStarted.send_message 0x100 [1] false 0).1) ∧
    canStarted.receive_message.1.bus_load = canStarted.bus_load ∧
    canInjState.bus_load = canStarted.bus_load :=
  ⟨(busload_update_spec canStarted 0x100 [1] false 0).1 (by decide),
   (busload_update_spec canStarted 0x100 [1] false 0).2.2.1,
   (busload_update_spec canStarted 0x300 [1, 2, 3, 4, 5, 6, 7, 8] false 0).2.2.2
     canInjState rfl⟩

end AgriSense
